import Mathlib

/-!
Verification of the CSV meta-description generator pipeline (src/index.js).

The JavaScript source is shallowly embedded below.  JavaScript strings that
may be `undefined` are modelled as `Option String` (`none` = `undefined`);
template interpolation of `undefined` yields the text "undefined", as in JS.
The external collaborators (csv-parser, csv-writer, the OpenAI client) are
modelled as parameters of an `Env` record; the code of src/index.js itself is
translated line by line.
-/

set_option autoImplicit false

namespace CsvMeta

/-- A raw or cleaned CSV row: a JS object, modelled as an association list
with distinct keys in insertion order (`objInsert` maintains both). -/
abbrev Row : Type := List (String × String)

/-- JS property read `row[k]`: `none` models `undefined`. -/
def jsGetField (r : Row) (k : String) : Option String :=
  (List.find? (fun p => p.1 = k) r).map (fun p => p.2)

/-- JS template interpolation of a possibly-undefined string:
interpolating `undefined` produces the text "undefined". -/
def jsStr : Option String → String
  | some s => s
  | none => "undefined"

/-- JS object property assignment `obj[k] = v`: overwrites in place if the
key exists, otherwise appends a new entry. -/
def objInsert (m : List (String × String)) (k v : String) : List (String × String) :=
  if m.any (fun p => p.1 = k) then
    m.map (fun p => if p.1 = k then (k, v) else p)
  else m ++ [(k, v)]

/-- The ASCII whitespace characters matched by the JS regex class `\s`
(the Unicode members of `\s` are not needed by any input considered here). -/
def isJsWs (c : Char) : Bool :=
  c = ' ' || c = '\t' || c = '\n' || c = '\r' || c = '\x0b' || c = '\x0c'

/-- The effect of `String.replace(/\s+/g, "_")` on a character list: each maximal run of
whitespace (leading and trailing runs included) becomes one underscore. -/
def collapseWs : List Char → List Char
  | [] => []
  | c :: cs =>
    if isJsWs c then '_' :: collapseWs (cs.dropWhile (fun d => isJsWs d))
    else c :: collapseWs cs
termination_by l => l.length
decreasing_by
  · exact Nat.lt_succ_of_le (List.dropWhile_sublist _).length_le
  · simp

/-- Key cleaning `key.toLowerCase().replace(/\s+/g, "_")` (src/index.js:128). -/
def cleanKey (s : String) : String :=
  String.mk (collapseWs (s.data.map Char.toLower))

/-- The row-normalisation loop of src/index.js:126-131: build a fresh object
whose keys are the cleaned keys, values unchanged (later colliding keys
overwrite earlier ones, as JS object assignment does). -/
def cleanRow (row : Row) : Row :=
  row.foldl (fun acc p => objInsert acc (cleanKey p.1) p.2) []

/-- Configuration constant `BATCH_SIZE` (src/index.js:15). -/
def BATCH_SIZE : Nat := 5

/-- Configuration constant `DELAY_BETWEEN_BATCHES` in ms (src/index.js:16). -/
def DELAY_BETWEEN_BATCHES : Nat := 1000

/-- A schema-conformant parsed response from the external service
(the five required string fields of `responseSchema`). -/
structure ParsedResponse where
  id : String
  product_title : String
  product_description : String
  product_type : String
  meta_description : String
deriving DecidableEq

/-- The object returned by `generateStructuredResponse`: in the fallback
branch its fields are the original (possibly undefined) inputs, so each
field is an `Option String`. -/
structure EnrichedRecord where
  id : Option String
  product_title : Option String
  product_description : Option String
  product_type : Option String
  meta_description : Option String
deriving DecidableEq

/-- A schema-conformant response viewed as the returned object. -/
def ParsedResponse.toEnriched (r : ParsedResponse) : EnrichedRecord :=
  ⟨some r.id, some r.product_title, some r.product_description,
   some r.product_type, some r.meta_description⟩

/-- One message of the chat request. -/
structure ChatMessage where
  role : String
  content : String
deriving DecidableEq

/-- The JSON schema sent as `response_format.json_schema.schema`
(src/index.js:19-45): property names with their declared types. -/
structure JsonSchema where
  type : String
  properties : List (String × String)
  required : List String
  additionalProperties : Bool
deriving DecidableEq

/-- The constant `responseSchema` (src/index.js:19-45). -/
def responseSchema : JsonSchema :=
  { type := "object"
    properties :=
      [("id", "string"), ("product_title", "string"),
       ("product_description", "string"), ("product_type", "string"),
       ("meta_description", "string")]
    required :=
      ["id", "product_title", "product_description", "product_type",
       "meta_description"]
    additionalProperties := false }

/-- The request passed to `openai.chat.completions.create` (src/index.js:58-75). -/
structure ChatRequest where
  model : String
  messages : List ChatMessage
  schemaName : String
  schema : JsonSchema
  strict : Bool
  temperature : ℚ
deriving DecidableEq

/-- The prompt template of src/index.js:50-56 with the three interpolated
fields (the id is not interpolated into the prompt). -/
def promptFor (productTitle productDescription productType : Option String) : String :=
  "Generate a compelling SEO meta description for this product. The meta description should be 150-160 characters, include the product name, highlight key benefits, and encourage clicks. Consider the product type/category when crafting the description.\n\nProduct Title: "
    ++ jsStr productTitle
    ++ "\nProduct Description: " ++ jsStr productDescription
    ++ "\nProduct Type: " ++ jsStr productType
    ++ "\n\nReturn the response in the exact JSON format specified in the schema."

/-- The single request built by `generateStructuredResponse` (src/index.js:58-75). -/
def buildRequest (productTitle productDescription productType : Option String) : ChatRequest :=
  { model := "gpt-4o-mini"
    messages := [⟨"user", promptFor productTitle productDescription productType⟩]
    schemaName := "product_meta_response"
    schema := responseSchema
    strict := true
    temperature := 7 / 10 }

/-- Outcome of one service round trip, as observed by the `try` block:
either `create` throws (network error, timeout, API error), or it returns
content that `JSON.parse` rejects, or the content parses to the (strictly
schema-validated) object. -/
inductive SvcOutcome where
  | throws (msg : String)
  | malformed (msg : String)
  | parsed (r : ParsedResponse)
deriving DecidableEq

/-- Returns `true` exactly on the outcomes handled by the `catch` branch. -/
def SvcOutcome.isFailure : SvcOutcome → Bool
  | .throws _ => true
  | .malformed _ => true
  | .parsed _ => false

/-- The fallback sentinel string of src/index.js:87. -/
def metaFallbackSentinel : String := "Meta description generation failed"

/-- The function `generateStructuredResponse` (src/index.js:48-90), with the external
service abstracted as a function from the request to its outcome.  Returns
the resulting object together with the list of requests issued (the source
calls `create` exactly once, in the `try` block; the `catch` branch issues
none). -/
def generateStructuredResponse (id productTitle productDescription productType : Option String)
    (svc : ChatRequest → SvcOutcome) : EnrichedRecord × List ChatRequest :=
  let req := buildRequest productTitle productDescription productType
  match svc req with
  | .parsed r => (r.toEnriched, [req])
  | .throws _ =>
      (⟨id, productTitle, productDescription, productType, some metaFallbackSentinel⟩, [req])
  | .malformed _ =>
      (⟨id, productTitle, productDescription, productType, some metaFallbackSentinel⟩, [req])

/-- The per-row step of `processBatch` (src/index.js:95-100): field extraction
from the cleaned row followed by `generateStructuredResponse`. -/
def rowResult (svc : ChatRequest → SvcOutcome) (row : Row) : EnrichedRecord :=
  (generateStructuredResponse (jsGetField row "id") (jsGetField row "title")
    (jsGetField row "body_html") (jsGetField row "type") svc).1

/-- The function `processBatch` (src/index.js:93-106): map every row of the batch through
the generator; `Promise.all` resolves with the results in submission order,
so the join is a positional `map`. -/
def processBatch (svc : ChatRequest → SvcOutcome) (batch : List Row) : List EnrichedRecord :=
  batch.map (rowResult svc)

/-- The batching loop of src/index.js:141-153 with batch size `n + 1`
(the `n + 1` encoding keeps the loop total; the source runs it with
`BATCH_SIZE = 5`, i.e. `n = 4`, and a batch size of `0` would not terminate
in the source either).  Starting from index `i`, returns the list of batches
`products.slice(i, i + N)` in order, paired with the number of inter-batch
delays executed (`if (i + BATCH_SIZE < products.length) await delay(...)`). -/
def batchLoop (n : Nat) (products : List Row) (i : Nat) : List (List Row) × Nat :=
  if i < products.length then
    ((products.drop i).take (n + 1) :: (batchLoop n products (i + (n + 1))).1,
     (if i + (n + 1) < products.length then 1 else 0)
       + (batchLoop n products (i + (n + 1))).2)
  else ([], 0)
termination_by products.length - i
decreasing_by omega

/-- The result list accumulated by the loop (`results.push(...batchResults)`,
src/index.js:147): the concatenation of every batch's `processBatch` output,
in batch order. -/
def pipelineResults (svc : ChatRequest → SvcOutcome) (products : List Row) : List EnrichedRecord :=
  ((batchLoop (BATCH_SIZE - 1) products 0).1.map (processBatch svc)).flatten

/-- The csv-writer header configuration (src/index.js:158-164): field id
paired with column title, in order. -/
def outputHeader : List (String × String) :=
  [("id", "ID"), ("product_title", "Title"),
   ("product_description", "Body HTML"), ("product_type", "Type"),
   ("meta_description", "Meta Description")]

/-- The column titles of the output header, in order. -/
def outputHeaderTitles : List String := outputHeader.map (fun p => p.2)

/-- Modelled from the spec: the csv-writer collaborator is an external
library (out of scope per the spec), whose observable output is "a delimited
text file with a fixed header ... containing one row per input row, same
relative order"; a field that is JS `undefined` is written as the empty
string.  The file is the header line followed by one serialized line per
record. -/
def csvFileLines (records : List EnrichedRecord) : List String :=
  String.intercalate "," outputHeaderTitles ::
    records.map (fun r =>
      String.intercalate ","
        [(r.id).getD "", (r.product_title).getD "", (r.product_description).getD "",
         (r.product_type).getD "", (r.meta_description).getD ""])

/-- The external collaborators of `processCSV`: the csv-parser read stream
(either the raw rows collected by the `data` handler, or a stream error that
rejects the read promise), the external generation service, and the
csv-writer sink (`writeRecords` either resolves or rejects). -/
structure Env where
  readResult : Except String (List Row)
  svc : ChatRequest → SvcOutcome
  writeResult : List EnrichedRecord → Except String Unit

/-- Observable trace of one run of the `try` block of `processCSV`:
the console messages in order, the number of batches and inter-batch delays
executed, the argument handed to `csvWriter.writeRecords` (`none` when the
run failed before reaching the write call), and whether the block completed
or threw. -/
structure RunTrace where
  logs : List String
  numBatches : Nat
  delays : Nat
  writeCall : Option (List EnrichedRecord)
  outcome : Except String Unit

/-- The `try` block of `processCSV` (src/index.js:115-168): read and
normalize the rows, run the batching loop, write the results.  Any rejection
(read or write) aborts the block with that error. -/
def processCSVBody (env : Env) : RunTrace :=
  match env.readResult with
  | .error e =>
      { logs := ["Starting CSV processing..."]
        numBatches := 0, delays := 0, writeCall := none, outcome := .error e }
  | .ok raw =>
      let products := raw.map cleanRow
      let bd := batchLoop (BATCH_SIZE - 1) products 0
      let results := (bd.1.map (processBatch env.svc)).flatten
      let logs :=
        "Starting CSV processing..." ::
        ("Found " ++ toString products.length ++ " products to process") ::
        (List.range bd.1.length).map (fun k =>
          "Processing batch " ++ toString (k + 1) ++ "/"
            ++ toString ((products.length + BATCH_SIZE - 1) / BATCH_SIZE))
      match env.writeResult results with
      | .error e =>
          { logs := logs
            numBatches := bd.1.length, delays := bd.2
            writeCall := some results, outcome := .error e }
      | .ok _ =>
          { logs := logs ++ ["Processing complete! Results saved to products_with_meta.csv"]
            numBatches := bd.1.length, delays := bd.2
            writeCall := some results, outcome := .ok () }

/-- The function `processCSV` (src/index.js:114-173): the `try` block wrapped in the
top-level `catch`, which logs the error (`console.error`) and falls through,
so the returned promise always resolves.  The `Except` in the result type is
the caller-visible settlement of that promise. -/
def processCSV (env : Env) : Except String RunTrace :=
  let t := processCSVBody env
  match t.outcome with
  | .ok _ => .ok t
  | .error e =>
      .ok { t with logs := t.logs ++ ["Error processing CSV: " ++ e], outcome := .ok () }

/-! ### Helper lemmas about the batching loop -/

theorem batchLoop_flatten (n : Nat) (products : List Row) (i : Nat) :
    (batchLoop n products i).1.flatten = products.drop i := by
  refine batchLoop.induct n products
    (fun j => (batchLoop n products j).1.flatten = products.drop j) ?_ ?_ i
  · intro j h ih
    rw [batchLoop]
    simp only [if_pos h, List.flatten_cons, ih]
    have h2 := List.take_append_drop (n + 1) (products.drop j)
    rw [List.drop_drop] at h2
    exact h2
  · intro j h
    rw [batchLoop]
    simp [if_neg h, List.drop_eq_nil_iff.mpr (Nat.le_of_not_lt h)]

theorem batchLoop_count (n : Nat) (products : List Row) (i : Nat) :
    (batchLoop n products i).1.length = (products.length - i + n) / (n + 1) := by
  refine batchLoop.induct n products
    (fun j => (batchLoop n products j).1.length = (products.length - j + n) / (n + 1)) ?_ ?_ i
  · intro j h ih
    rw [batchLoop]
    simp only [if_pos h, List.length_cons, ih]
    have hm : products.length - (j + (n + 1)) = products.length - j - (n + 1) := by omega
    rw [hm]
    have h1 : products.length - j + n = (products.length - j - 1) + (n + 1) := by omega
    rw [h1, Nat.add_div_right _ (Nat.succ_pos n)]
    congr 1
    rcases Nat.lt_or_ge (products.length - j) (n + 1) with hlt | hge
    · have e1 : products.length - j - (n + 1) = 0 := by omega
      rw [e1, Nat.div_eq_of_lt (by omega), Nat.div_eq_of_lt (by omega)]
    · congr 1
      omega
  · intro j h
    rw [batchLoop]
    have e1 : products.length - j = 0 := by omega
    simp [if_neg h, e1, Nat.div_eq_of_lt]

theorem batchLoop_fst_nil_iff (n : Nat) (products : List Row) (i : Nat) :
    (batchLoop n products i).1 = [] ↔ products.length ≤ i := by
  rw [batchLoop]
  split
  · simp; omega
  · simp; omega

theorem batchLoop_delays (n : Nat) (products : List Row) (i : Nat) :
    (batchLoop n products i).2 = (batchLoop n products i).1.length - 1 := by
  refine batchLoop.induct n products
    (fun j => (batchLoop n products j).2 = (batchLoop n products j).1.length - 1) ?_ ?_ i
  · intro j h ih
    rw [batchLoop]
    simp only [if_pos h, List.length_cons]
    by_cases h2 : j + (n + 1) < products.length
    · have hne : (batchLoop n products (j + (n + 1))).1 ≠ [] := by
        rw [ne_eq, batchLoop_fst_nil_iff]
        omega
      have hlen : 0 < (batchLoop n products (j + (n + 1))).1.length :=
        List.length_pos.mpr hne
      rw [if_pos h2, ih]
      omega
    · have hnil : (batchLoop n products (j + (n + 1))).1 = [] :=
        (batchLoop_fst_nil_iff n products _).mpr (by omega)
      have hz : (batchLoop n products (j + (n + 1))).2 = 0 := by
        rw [batchLoop, if_neg (by omega : ¬ j + (n + 1) < products.length)]
      rw [if_neg h2, hz, hnil]
      simp
  · intro j h
    rw [batchLoop]
    simp [if_neg h]

theorem batchLoop_dropLast_sizes (n : Nat) (products : List Row) (i : Nat) :
    ∀ b ∈ (batchLoop n products i).1.dropLast, b.length = n + 1 := by
  refine batchLoop.induct n products
    (fun j => ∀ b ∈ (batchLoop n products j).1.dropLast, b.length = n + 1) ?_ ?_ i
  · intro j h ih b hb
    rw [batchLoop] at hb
    simp only [if_pos h] at hb
    by_cases h2 : j + (n + 1) < products.length
    · have hne : (batchLoop n products (j + (n + 1))).1 ≠ [] := by
        rw [ne_eq, batchLoop_fst_nil_iff]
        omega
      rw [List.dropLast_cons_of_ne_nil hne] at hb
      rcases List.mem_cons.mp hb with hhd | htl
      · subst hhd
        rw [List.length_take, List.length_drop]
        omega
      · exact ih b htl
    · have hnil : (batchLoop n products (j + (n + 1))).1 = [] :=
        (batchLoop_fst_nil_iff n products _).mpr (by omega)
      rw [hnil] at hb
      simp at hb
  · intro j h b hb
    rw [batchLoop] at hb
    simp [if_neg h] at hb

theorem batchLoop_getLast (n : Nat) (products : List Row) (i : Nat)
    (h : i < products.length) :
    ∃ b, (batchLoop n products i).1.getLast? = some b ∧
      b.length = (if (products.length - i) % (n + 1) = 0 then n + 1
                  else (products.length - i) % (n + 1)) := by
  refine batchLoop.induct n products
    (fun j => j < products.length →
      ∃ b, (batchLoop n products j).1.getLast? = some b ∧
        b.length = (if (products.length - j) % (n + 1) = 0 then n + 1
                    else (products.length - j) % (n + 1))) ?_ ?_ i h
  · intro j hj ih _
    rw [batchLoop]
    simp only [if_pos hj]
    by_cases h2 : j + (n + 1) < products.length
    · obtain ⟨b, hb1, hb2⟩ := ih h2
      have hne : (batchLoop n products (j + (n + 1))).1 ≠ [] := by
        rw [ne_eq, batchLoop_fst_nil_iff]
        omega
      refine ⟨b, ?_, ?_⟩
      · obtain ⟨y, l2, hl2⟩ := List.exists_cons_of_ne_nil hne
        rw [hl2]
        rw [hl2] at hb1
        rw [List.getLast?_cons_cons]
        exact hb1
      · have hmod : (products.length - j) % (n + 1)
            = (products.length - (j + (n + 1))) % (n + 1) := by
          rw [Nat.mod_eq_sub_mod (by omega : n + 1 ≤ products.length - j)]
          congr 1
          omega
        rw [hmod]
        exact hb2
    · have hnil : (batchLoop n products (j + (n + 1))).1 = [] :=
        (batchLoop_fst_nil_iff n products _).mpr (by omega)
      rw [hnil]
      refine ⟨(products.drop j).take (n + 1), rfl, ?_⟩
      rw [List.length_take, List.length_drop]
      have hm1 : 1 ≤ products.length - j := by omega
      have hm2 : products.length - j ≤ n + 1 := by omega
      by_cases he : products.length - j = n + 1
      · rw [he]
        simp
      · have hlt : products.length - j < n + 1 := by omega
        have hmodeq : (products.length - j) % (n + 1) = products.length - j :=
          Nat.mod_eq_of_lt hlt
        rw [hmodeq, if_neg (by omega)]
        omega
  · intro j hj hcontra
    omega

/-- The pipeline result list is the positional map of the per-row step over
the full product list: batching then concatenating changes nothing. -/
theorem pipelineResults_eq_map (svc : ChatRequest → SvcOutcome) (products : List Row) :
    pipelineResults svc products = products.map (rowResult svc) := by
  unfold pipelineResults processBatch
  rw [← List.map_flatten, batchLoop_flatten, List.drop_zero]

/-! ### Helper lemmas about the row normalizer -/

theorem objInsert_of_fresh (acc : List (String × String)) (k v : String)
    (h : ∀ q ∈ acc, q.1 ≠ k) : objInsert acc k v = acc ++ [(k, v)] := by
  unfold objInsert
  rw [if_neg]
  simp only [List.any_eq_true, decide_eq_true_eq, not_exists]
  intro q hq
  exact h q hq.1 hq.2

theorem foldl_objInsert_fresh (row : List (String × String)) (acc : List (String × String))
    (hfresh : ∀ p ∈ row, ∀ q ∈ acc, q.1 ≠ cleanKey p.1)
    (hnodup : (row.map (fun p => cleanKey p.1)).Nodup) :
    row.foldl (fun a p => objInsert a (cleanKey p.1) p.2) acc
      = acc ++ row.map (fun p => (cleanKey p.1, p.2)) := by
  induction row generalizing acc with
  | nil => simp
  | cons p ps ih =>
    simp only [List.foldl_cons, List.map_cons]
    rw [objInsert_of_fresh _ _ _ (fun q hq => hfresh p (List.mem_cons_self p ps) q hq)]
    rw [List.map_cons, List.nodup_cons] at hnodup
    rw [ih (acc ++ [(cleanKey p.1, p.2)])]
    · simp
    · intro p2 hp2 q hq
      rcases List.mem_append.mp hq with hq1 | hq2
      · exact hfresh p2 (List.mem_cons_of_mem p hp2) q hq1
      · rw [List.mem_singleton.mp hq2]
        intro hcontra
        apply hnodup.1
        rw [show cleanKey p.1 = cleanKey p2.1 from hcontra]
        exact List.mem_map_of_mem (fun p3 => cleanKey p3.1) hp2
    · exact hnodup.2

/-- When no two cleaned keys collide, the normalizer is entrywise: each key
is cleaned in place and every value is preserved. -/
theorem cleanRow_eq_map (row : Row)
    (hnodup : (row.map (fun p => cleanKey p.1)).Nodup) :
    cleanRow row = row.map (fun p => (cleanKey p.1, p.2)) := by
  unfold cleanRow
  rw [foldl_objInsert_fresh row [] (by simp) hnodup]
  simp

/-! ### Claim theorems -/

/-- C2: whenever the external service round trip fails in any way (the call
throws or times out, or the returned content is malformed or violates the
schema), `generateStructuredResponse` does not raise: it returns a record
whose id, product_title, product_description and product_type equal the
original inputs and whose meta_description is the fixed fallback sentinel. -/
theorem claim2_failure_fallback
    (id productTitle productDescription productType : Option String)
    (svc : ChatRequest → SvcOutcome)
    (h : (svc (buildRequest productTitle productDescription productType)).isFailure = true) :
    (generateStructuredResponse id productTitle productDescription productType svc).1
      = ⟨id, productTitle, productDescription, productType, some metaFallbackSentinel⟩ := by
  unfold generateStructuredResponse
  cases hsvc : svc (buildRequest productTitle productDescription productType) with
  | throws msg => simp [hsvc]
  | malformed msg => simp [hsvc]
  | parsed r => rw [hsvc] at h; simp [SvcOutcome.isFailure] at h

/-- Witness for C2 at a concrete row and a service that times out. -/
theorem claim2_failure_fallback_witness :
    ((fun _ : ChatRequest => SvcOutcome.throws "timeout")
        (buildRequest (some "Widget") (some "A great widget.") (some "Gadgets"))).isFailure
       = true ∧
    (generateStructuredResponse (some "1") (some "Widget") (some "A great widget.")
        (some "Gadgets") (fun _ => SvcOutcome.throws "timeout")).1
      = ⟨some "1", some "Widget", some "A great widget.", some "Gadgets",
         some metaFallbackSentinel⟩ :=
  ⟨rfl, claim2_failure_fallback (some "1") (some "Widget") (some "A great widget.")
    (some "Gadgets") (fun _ => SvcOutcome.throws "timeout") rfl⟩

/-- C3: when the external service returns a schema-conformant response,
`generateStructuredResponse` returns exactly the parsed response object:
every field equals the corresponding parsed field, with no mutation,
no substitution from the inputs, and no added fields (the record has exactly
the five schema fields). -/
theorem claim3_success_verbatim
    (id productTitle productDescription productType : Option String)
    (r : ParsedResponse) (svc : ChatRequest → SvcOutcome)
    (h : svc (buildRequest productTitle productDescription productType) = .parsed r) :
    (generateStructuredResponse id productTitle productDescription productType svc).1
        = r.toEnriched ∧
    (generateStructuredResponse id productTitle productDescription productType svc).1.id
        = some r.id ∧
    (generateStructuredResponse id productTitle productDescription productType
        svc).1.product_title = some r.product_title ∧
    (generateStructuredResponse id productTitle productDescription productType
        svc).1.product_description = some r.product_description ∧
    (generateStructuredResponse id productTitle productDescription productType
        svc).1.product_type = some r.product_type ∧
    (generateStructuredResponse id productTitle productDescription productType
        svc).1.meta_description = some r.meta_description := by
  simp [generateStructuredResponse, h, ParsedResponse.toEnriched]

/-- Witness for C3 at a concrete row and a concrete conformant response. -/
theorem claim3_success_verbatim_witness :
    (fun _ : ChatRequest =>
        SvcOutcome.parsed ⟨"9", "T", "D", "G", "An SEO description."⟩)
        (buildRequest (some "Widget") (some "A great widget.") (some "Gadgets"))
      = SvcOutcome.parsed ⟨"9", "T", "D", "G", "An SEO description."⟩ ∧
    (generateStructuredResponse (some "1") (some "Widget") (some "A great widget.")
        (some "Gadgets")
        (fun _ => SvcOutcome.parsed ⟨"9", "T", "D", "G", "An SEO description."⟩)).1
      = ParsedResponse.toEnriched ⟨"9", "T", "D", "G", "An SEO description."⟩ :=
  ⟨rfl,
   (claim3_success_verbatim (some "1") (some "Widget") (some "A great widget.")
      (some "Gadgets") ⟨"9", "T", "D", "G", "An SEO description."⟩
      (fun _ => SvcOutcome.parsed ⟨"9", "T", "D", "G", "An SEO description."⟩) rfl).1⟩

/-- C8: for every row, `generateStructuredResponse` issues exactly one request
regardless of outcome (no retry on failure); the request has a single
user-role message built from the fixed prompt template interpolating the
row's fields, the fixed temperature 0.7, and the strict structured-output
schema requiring exactly the fields id, product_title, product_description,
product_type and meta_description with no additional properties. -/
theorem claim8_single_request
    (id productTitle productDescription productType : Option String)
    (svc : ChatRequest → SvcOutcome) :
    (generateStructuredResponse id productTitle productDescription productType svc).2
        = [buildRequest productTitle productDescription productType] ∧
    (buildRequest productTitle productDescription productType).messages
        = [⟨"user", promptFor productTitle productDescription productType⟩] ∧
    (buildRequest productTitle productDescription productType).temperature = 7 / 10 ∧
    (buildRequest productTitle productDescription productType).model = "gpt-4o-mini" ∧
    (buildRequest productTitle productDescription productType).schemaName
        = "product_meta_response" ∧
    (buildRequest productTitle productDescription productType).strict = true ∧
    (buildRequest productTitle productDescription productType).schema.required
        = ["id", "product_title", "product_description", "product_type",
           "meta_description"] ∧
    (buildRequest productTitle productDescription productType).schema.additionalProperties
        = false := by
  refine ⟨?_, rfl, rfl, rfl, rfl, rfl, rfl, rfl⟩
  unfold generateStructuredResponse
  cases hsvc : svc (buildRequest productTitle productDescription productType) <;> simp [hsvc]

/-- C1: for every input record sequence of length R, the list handed to the
CSV writer has exactly R enriched records, and the record at position k is
the one produced from the input record at position k: output order equals
input order. -/
theorem claim1_output_order (env : Env) (raw : List Row)
    (h : env.readResult = .ok raw) :
    (processCSVBody env).writeCall = some (pipelineResults env.svc (raw.map cleanRow)) ∧
    (pipelineResults env.svc (raw.map cleanRow)).length = raw.length ∧
    ∀ k : Nat, (pipelineResults env.svc (raw.map cleanRow))[k]?
      = ((raw.map cleanRow)[k]?).map (rowResult env.svc) := by
  refine ⟨?_, ?_, ?_⟩
  · unfold processCSVBody
    rw [h]
    simp only [pipelineResults]
    cases env.writeResult (((batchLoop (BATCH_SIZE - 1) (raw.map cleanRow) 0).1.map
        (processBatch env.svc)).flatten) <;> rfl
  · rw [pipelineResults_eq_map, List.length_map, List.length_map]
  · intro k
    rw [pipelineResults_eq_map, List.getElem?_map]

/-- Witness for C1 on a concrete two-row input. -/
theorem claim1_output_order_witness :
    (processCSVBody
        { readResult := .ok [[("ID", "1")], [("ID", "2")]]
          svc := fun _ => SvcOutcome.throws "down"
          writeResult := fun _ => .ok () }).writeCall
      = some (pipelineResults (fun _ => SvcOutcome.throws "down")
          ([[("ID", "1")], [("ID", "2")]].map cleanRow)) ∧
    (pipelineResults (fun _ => SvcOutcome.throws "down")
        ([[("ID", "1")], [("ID", "2")]].map cleanRow)).length = 2 ∧
    ∀ k : Nat, (pipelineResults (fun _ => SvcOutcome.throws "down")
        ([[("ID", "1")], [("ID", "2")]].map cleanRow))[k]?
      = (([[("ID", "1")], [("ID", "2")]].map cleanRow)[k]?).map
          (rowResult (fun _ => SvcOutcome.throws "down")) :=
  claim1_output_order
    { readResult := .ok [[("ID", "1")], [("ID", "2")]]
      svc := fun _ => SvcOutcome.throws "down"
      writeResult := fun _ => .ok () }
    [[("ID", "1")], [("ID", "2")]] rfl

/-- C4: for every nonempty input and batch size N = n + 1 > 0, the batching
loop partitions the rows into consecutive windows in input order, executes
exactly ceil(R/N) batches, every batch except possibly the last has exactly
N rows, and the last batch has R mod N rows (or N when R mod N = 0). -/
theorem claim4_batch_partition (n : Nat) (products : List Row)
    (h : products ≠ []) :
    (batchLoop n products 0).1.flatten = products ∧
    (batchLoop n products 0).1.length
        = (products.length + (n + 1) - 1) / (n + 1) ∧
    (∀ b ∈ (batchLoop n products 0).1.dropLast, b.length = n + 1) ∧
    (∃ b, (batchLoop n products 0).1.getLast? = some b ∧
      b.length = (if products.length % (n + 1) = 0 then n + 1
                  else products.length % (n + 1))) := by
  refine ⟨?_, ?_, batchLoop_dropLast_sizes n products 0, ?_⟩
  · rw [batchLoop_flatten, List.drop_zero]
  · rw [batchLoop_count]
    congr 1
  · have h0 : 0 < products.length := List.length_pos.mpr h
    have := batchLoop_getLast n products 0 h0
    simpa using this

/-- Witness for C4: 12 rows with batch size 5. -/
theorem claim4_batch_partition_witness :
    (batchLoop 4 (List.replicate 12 ([] : Row)) 0).1.flatten
        = List.replicate 12 ([] : Row) ∧
    (batchLoop 4 (List.replicate 12 ([] : Row)) 0).1.length = (12 + 5 - 1) / 5 ∧
    (∀ b ∈ (batchLoop 4 (List.replicate 12 ([] : Row)) 0).1.dropLast,
        b.length = 5) ∧
    (∃ b, (batchLoop 4 (List.replicate 12 ([] : Row)) 0).1.getLast? = some b ∧
      b.length = (if (List.replicate 12 ([] : Row)).length % 5 = 0 then 5
                  else (List.replicate 12 ([] : Row)).length % 5)) := by
  have := claim4_batch_partition 4 (List.replicate 12 ([] : Row)) (by simp)
  simpa using this

/-- C5: an inter-batch delay runs after every batch except the last, so
exactly ceil(R/N) - 1 delays occur (0 when R ≤ N); in particular 12 rows
with batch size 5 give 3 batches of sizes 5, 5, 2 and exactly 2 delays,
never 3. -/
theorem claim5_delay_count :
    (∀ (n : Nat) (products : List Row),
      (batchLoop n products 0).2 = (batchLoop n products 0).1.length - 1 ∧
      (batchLoop n products 0).2
        = (products.length + (n + 1) - 1) / (n + 1) - 1) ∧
    (batchLoop 4 (List.replicate 12 ([] : Row)) 0).1.map List.length
        = [5, 5, 2] ∧
    (batchLoop 4 (List.replicate 12 ([] : Row)) 0).2 = 2 := by
  refine ⟨fun n products => ⟨batchLoop_delays n products 0, ?_⟩, ?_, ?_⟩
  · rw [batchLoop_delays, batchLoop_count]
    congr 2
  · simp [batchLoop]
  · simp [batchLoop]

/-- C6 counterexample: the Row Normalizer does NOT always return a mapping
with the same number of entries.  The two distinct keys "A B" and "A_B" both
normalize to "a_b", and the later JS object assignment overwrites the
earlier one, so a two-entry row cleans to a one-entry row (and the value "x"
is lost). -/
theorem claim6_normalizer_counterexample :
    ([("A B", "x"), ("A_B", "y")] : Row).length = 2 ∧
    (cleanRow [("A B", "x"), ("A_B", "y")]).length = 1 ∧
    cleanRow [("A B", "x"), ("A_B", "y")] = [("a_b", "y")] := by
  refine ⟨rfl, ?_, ?_⟩ <;> simp [cleanRow, objInsert, cleanKey, collapseWs, isJsWs]

/-- C6 amended: provided no two keys of the raw row normalize to the same
key, the Row Normalizer returns a mapping with the same number of entries
whose keys are the original keys lowercased with every maximal whitespace
run (leading and trailing runs included) replaced by a single underscore and
whose values are the original values unchanged; the empty mapping maps to
the empty mapping, and the keys "Product Title" and " Body_HTML " normalize
to product_title and _body_html_.  (When normalized keys collide, the later
entry overwrites the earlier one, as the counterexample shows.) -/
theorem claim6_normalizer_amended (row : Row)
    (hnodup : (row.map (fun p => cleanKey p.1)).Nodup) :
    cleanRow row = row.map (fun p => (cleanKey p.1, p.2)) ∧
    (cleanRow row).length = row.length ∧
    (cleanRow row).map (fun p => p.2) = row.map (fun p => p.2) ∧
    (cleanRow row).map (fun p => p.1) = row.map (fun p => cleanKey p.1) ∧
    cleanRow ([] : Row) = [] ∧
    cleanKey "Product Title" = "product_title" ∧
    cleanKey " Body_HTML " = "_body_html_" := by
  have he := cleanRow_eq_map row hnodup
  refine ⟨he, ?_, ?_, ?_, rfl, ?_, ?_⟩
  · rw [he, List.length_map]
  · rw [he]
    simp
  · rw [he]
    simp
  · simp [cleanKey, collapseWs, isJsWs]
  · simp [cleanKey, collapseWs, isJsWs]

/-- Witness for C6 (amended) on a concrete three-column row. -/
theorem claim6_normalizer_amended_witness :
    (([("Product Title", "v1"), (" Body_HTML ", "v2"), ("TYPE", "v3")] : Row).map
        (fun p => cleanKey p.1)).Nodup ∧
    cleanRow [("Product Title", "v1"), (" Body_HTML ", "v2"), ("TYPE", "v3")]
      = ([("Product Title", "v1"), (" Body_HTML ", "v2"), ("TYPE", "v3")] : Row).map
          (fun p => (cleanKey p.1, p.2)) :=
  ⟨by simp [cleanKey, collapseWs, isJsWs],
   (claim6_normalizer_amended
      [("Product Title", "v1"), (" Body_HTML ", "v2"), ("TYPE", "v3")]
      (by simp [cleanKey, collapseWs, isJsWs])).1⟩

/-- C7 counterexample: the output header titles are not the five columns
named by the claim; "Identifier" and "Body" do not occur, the code writes
"ID" and "Body HTML". -/
theorem claim7_header_counterexample :
    outputHeaderTitles ≠ ["Identifier", "Title", "Body", "Type", "Meta Description"] ∧
    "Identifier" ∉ outputHeaderTitles ∧
    "Body" ∉ outputHeaderTitles := by
  refine ⟨?_, ?_, ?_⟩ <;> decide

/-- C7 amended: the output file is written with the fixed five-column header
ID, Title, Body HTML, Type, Meta Description, in that order, for every run
that reaches the write step (the header is a constant of the writer
configuration, so every written file starts with it). -/
theorem claim7_header_amended :
    outputHeaderTitles = ["ID", "Title", "Body HTML", "Type", "Meta Description"] ∧
    outputHeader.map (fun p => p.1)
      = ["id", "product_title", "product_description", "product_type",
         "meta_description"] ∧
    ∀ records : List EnrichedRecord,
      (csvFileLines records).head? = some "ID,Title,Body HTML,Type,Meta Description" := by
  refine ⟨rfl, rfl, fun records => rfl⟩

/-- C9: the promise returned by processCSV never rejects: every error raised
during the run (including fatal read and write failures) is caught by the
top-level handler, reported to the logging collaborator, and the function
resolves normally, so a caller cannot observe a read/write failure as a
rejection. -/
theorem claim9_never_rejects (env : Env) :
    ∃ t : RunTrace, processCSV env = .ok t ∧ t.outcome = .ok () ∧
      ∀ e, (processCSVBody env).outcome = .error e →
        ("Error processing CSV: " ++ e) ∈ t.logs := by
  cases hout : (processCSVBody env).outcome with
  | ok u =>
      cases u
      refine ⟨processCSVBody env, ?_, hout, ?_⟩
      · simp only [processCSV]
        rw [hout]
      · intro e he
        simp [hout] at he
  | error e =>
      refine ⟨{ processCSVBody env with
                  logs := (processCSVBody env).logs ++ ["Error processing CSV: " ++ e]
                  outcome := Except.ok () }, ?_, rfl, ?_⟩
      · simp only [processCSV]
        rw [hout]
      · intro e2 he2
        simp only [hout, Except.error.injEq] at he2
        subst he2
        simp

/-- Witness for C9 at a concrete environment whose read stream fails. -/
theorem claim9_never_rejects_witness :
    ∃ t : RunTrace,
      processCSV
          { readResult := .error "ENOENT"
            svc := fun _ => SvcOutcome.throws "down"
            writeResult := fun _ => .ok () }
        = .ok t ∧
      t.outcome = .ok () ∧
      ∀ e, (processCSVBody
          { readResult := .error "ENOENT"
            svc := fun _ => SvcOutcome.throws "down"
            writeResult := fun _ => .ok () }).outcome = Except.error e →
        ("Error processing CSV: " ++ e) ∈ t.logs :=
  claim9_never_rejects
    { readResult := .error "ENOENT"
      svc := fun _ => SvcOutcome.throws "down"
      writeResult := fun _ => .ok () }

/-- C10: on empty input the loop executes zero batches and zero delays, the
CSV writer is still invoked with the empty result list, the resulting file
is the header row alone, the completion message is logged, and the run
resolves normally. -/
theorem claim10_empty_input (env : Env)
    (h1 : env.readResult = .ok [])
    (h2 : env.writeResult [] = .ok ()) :
    (processCSVBody env).numBatches = 0 ∧
    (processCSVBody env).delays = 0 ∧
    (processCSVBody env).writeCall = some [] ∧
    (processCSVBody env).outcome = .ok () ∧
    "Processing complete! Results saved to products_with_meta.csv"
        ∈ (processCSVBody env).logs ∧
    csvFileLines [] = ["ID,Title,Body HTML,Type,Meta Description"] ∧
    processCSV env = .ok (processCSVBody env) := by
  have hbody : processCSVBody env =
      { logs := ["Starting CSV processing...", "Found 0 products to process",
                 "Processing complete! Results saved to products_with_meta.csv"]
        numBatches := 0, delays := 0, writeCall := some [], outcome := .ok () } := by
    unfold processCSVBody
    rw [h1]
    simp only [List.map_nil]
    rw [show batchLoop (BATCH_SIZE - 1) [] 0 = ([], 0) from by rw [batchLoop]; simp]
    simp only [List.map_nil, List.flatten_nil, List.length_nil, List.range_zero]
    rw [h2]
    rfl
  rw [hbody]
  refine ⟨rfl, rfl, rfl, rfl, by simp, rfl, ?_⟩
  rw [processCSV, hbody]

/-- Witness for C10 at a concrete environment with an empty read result. -/
theorem claim10_empty_input_witness :
    (processCSVBody
        { readResult := .ok []
          svc := fun _ => SvcOutcome.throws "down"
          writeResult := fun _ => .ok () }).numBatches = 0 ∧
    (processCSVBody
        { readResult := .ok []
          svc := fun _ => SvcOutcome.throws "down"
          writeResult := fun _ => .ok () }).delays = 0 ∧
    (processCSVBody
        { readResult := .ok []
          svc := fun _ => SvcOutcome.throws "down"
          writeResult := fun _ => .ok () }).writeCall = some [] ∧
    (processCSVBody
        { readResult := .ok []
          svc := fun _ => SvcOutcome.throws "down"
          writeResult := fun _ => .ok () }).outcome = .ok () ∧
    "Processing complete! Results saved to products_with_meta.csv"
        ∈ (processCSVBody
            { readResult := .ok []
              svc := fun _ => SvcOutcome.throws "down"
              writeResult := fun _ => .ok () }).logs ∧
    csvFileLines [] = ["ID,Title,Body HTML,Type,Meta Description"] ∧
    processCSV
        { readResult := .ok []
          svc := fun _ => SvcOutcome.throws "down"
          writeResult := fun _ => .ok () }
      = .ok (processCSVBody
          { readResult := .ok []
            svc := fun _ => SvcOutcome.throws "down"
            writeResult := fun _ => .ok () }) :=
  claim10_empty_input
    { readResult := .ok []
      svc := fun _ => SvcOutcome.throws "down"
      writeResult := fun _ => .ok () } rfl rfl

end CsvMeta
